import Mathlib

/-!
Verification of the arby cross-venue arbitrage radar core.

Shallow embedding of `src/core/types.py`, `src/core/simulator.py`,
`src/core/data_provider.py` and `src/core/controller.py`.  Prices,
volumes and timestamps are modelled as rationals; Python dicts keyed by
the two fixed venue names are modelled as two-field structures; Python
dynamic attribute lookup and dataclass keyword construction are modelled
explicitly where a claim depends on them.
-/

namespace Arby


/-! ## Data model (src/core/types.py) -/

/-- Structure `QuoteSnapshot` from src/core/types.py: one venue's bid/ask/volume
for one pair at one timestamp. -/
structure QuoteSnapshot where
  exchange : String
  pair : String
  bid : ℚ
  ask : ℚ
  volume_24h : ℚ
  timestamp : ℚ
deriving DecidableEq, Repr

/-- Structure `ExchangeStatus` from src/core/types.py. -/
structure ExchangeStatus where
  name : String
  status : String
  latency_s : ℚ
  changed_at : ℚ
deriving DecidableEq, Repr

/-- The opportunity row as assembled by `RadarController.refresh`
(controller.py lines 141-162) and as constructed by the repository's own
test `test_model_basic`: it carries `favorite` and `updated_ts` in
addition to the fields declared on the frozen dataclass in types.py.
(The declared-field mismatch itself is modelled separately by
`arbRowDataclassFields` / `controllerArbRowKwargs`.) -/
structure ArbRow where
  favorite : Bool
  pair : String
  buy_exchange : String
  buy_price : ℚ
  sell_exchange : String
  sell_price : ℚ
  profit_pct : ℚ
  volume_24h : ℚ
  updated_secs : ℚ
  spread : ℚ
  quality : String
  quality_flags : List String
  updated_ts : ℚ
  binance_bid : ℚ
  binance_ask : ℚ
  poloniex_bid : ℚ
  poloniex_ask : ℚ
  data_source : String
deriving DecidableEq, Repr

/-- Structure `FilterSettings` from src/core/controller.py. -/
structure FilterSettings where
  top_n : Option Int
  min_profit : ℚ
  min_volume : ℚ
  only_usdt : Bool
  exclude_leveraged : Bool
  show_only_signals : Bool
  show_favorites_only : Bool
  cooldown_seconds : Int
  max_profit_suspicious : ℚ
  stale_sec : Int
  update_interval_ms : Int
  data_source : String
deriving DecidableEq, Repr

/-- The per-tick status dictionary: it always holds exactly the keys
`Binance` and `Poloniex` (simulator.py lines 26-29, data_provider.py
lines 81-90). -/
structure StatusMap where
  binance : ExchangeStatus
  poloniex : ExchangeStatus
deriving DecidableEq, Repr

/-- Lookup `statuses[name].status` for the two fixed venue keys. -/
def StatusMap.statusOf (s : StatusMap) (name : String) : String :=
  if name = "Binance" then s.binance.status else s.poloniex.status

/-- Function `normalize_pair` from src/utils/formatting.py:
`pair.replace("-", "/").upper()`. -/
def normalizePair (pair : String) : String :=
  (pair.replace "-" "/").toUpper

/-! ## Routing and row assembly (controller.py lines 119-162) -/

/-- Buy side of the routing in `RadarController.refresh`: default
`("Binance", binance.ask)`, switched to Poloniex when
`poloniex.ask < binance.ask`. -/
def routeBuy (binance poloniex : QuoteSnapshot) : String × ℚ :=
  if poloniex.ask < binance.ask then ("Poloniex", poloniex.ask)
  else ("Binance", binance.ask)

/-- Sell side of the routing in `RadarController.refresh`: default
`("Poloniex", poloniex.bid)`, switched to Binance when
`binance.bid > poloniex.bid`. -/
def routeSell (binance poloniex : QuoteSnapshot) : String × ℚ :=
  if poloniex.bid < binance.bid then ("Binance", binance.bid)
  else ("Poloniex", poloniex.bid)

/-- Model of `RadarController._quality_flags`.  The trailing loop over the venue
set appends `Stale` at most once because of its `"Stale" not in flags`
guard, which is what the final conditional captures. -/
def qualityFlags (staleSec minVolume maxProfitSuspicious : ℚ)
    (statuses : StatusMap) (profit_pct volume_24h updated_secs : ℚ)
    (buy_exchange sell_exchange : String) : List String :=
  let flags : List String := if staleSec < updated_secs then ["Stale"] else []
  let flags := if volume_24h < minVolume then flags ++ ["LowVol"] else flags
  let flags := if maxProfitSuspicious < profit_pct then flags ++ ["Suspicious"] else flags
  if "Stale" ∉ flags ∧
      (statuses.statusOf buy_exchange = "Disconnected" ∨
        statuses.statusOf sell_exchange = "Disconnected") then
    flags ++ ["Stale"]
  else flags

/-- Model of `RadarController._quality_label`. -/
def qualityLabel (flags : List String) : String :=
  if flags = [] then "OK"
  else if "Suspicious" ∈ flags then "Suspicious"
  else if "Stale" ∈ flags then "Stale"
  else if "LowVol" ∈ flags then "LowVol"
  else flags.headD ""

/-- One iteration of the row-assembly loop in `RadarController.refresh`
(controller.py lines 119-162), for a pair with a quote from both venues.
`staleSec` and `maxProfitSuspicious` are the controller's `_stale_sec`
and `_max_profit_suspicious` attributes; `favFn` is the model's
`is_favorite` lookup; `dataSource` is `provider.mode()`. -/
def mkArbRow (minVolume staleSec maxProfitSuspicious : ℚ)
    (statuses : StatusMap) (favFn : String → Bool) (dataSource : String)
    (now : ℚ) (pair : String) (binance poloniex : QuoteSnapshot) : ArbRow :=
  let buy := routeBuy binance poloniex
  let sell := routeSell binance poloniex
  let profit_pct := ((sell.2 - buy.2) / buy.2) * 100
  let volume := min binance.volume_24h poloniex.volume_24h
  let updated_ts := max binance.timestamp poloniex.timestamp
  let updated_secs := now - updated_ts
  let spread := sell.2 - buy.2
  let flags := qualityFlags staleSec minVolume maxProfitSuspicious statuses
    profit_pct volume updated_secs buy.1 sell.1
  let normalized := normalizePair pair
  { favorite := favFn normalized
    pair := normalized
    buy_exchange := buy.1
    buy_price := buy.2
    sell_exchange := sell.1
    sell_price := sell.2
    profit_pct := profit_pct
    volume_24h := volume
    updated_secs := updated_secs
    spread := spread
    quality := qualityLabel flags
    quality_flags := flags
    updated_ts := updated_ts
    binance_bid := binance.bid
    binance_ask := binance.ask
    poloniex_bid := poloniex.bid
    poloniex_ask := poloniex.ask
    data_source := dataSource }

/-! ## Simulator connectivity state machine
(src/core/simulator.py lines 138-170) -/

/-- The `elif` cascade of `MarketSimulator._maybe_toggle_status`: the
next status computed from the current status label and the single
random draw `roll` of that venue's tick. -/
def nextStatus (status : String) (roll : ℚ) : String :=
  if status = "Connected" ∧ roll < 2/100 then "Degraded"
  else if status = "Degraded" ∧ roll < 4/100 then "Disconnected"
  else if status = "Degraded" ∧ roll < 18/100 then "Connected"
  else if status = "Disconnected" ∧ roll < 12/100 then "Connected"
  else status

/-- Per-venue base latency (simulator.py line 151). -/
def baseLatency (name : String) : ℚ :=
  if name = "Binance" then 12/100 else 18/100

/-- One venue's full `_maybe_toggle_status` update: next status, scaled
latency, and `changed_at` updated only on an actual change. -/
def toggleStatus (name : String) (st : ExchangeStatus) (roll now : ℚ) :
    ExchangeStatus :=
  let ns := nextStatus st.status roll
  let latency := baseLatency name *
    (if ns = "Degraded" then 5/2 else if ns = "Disconnected" then 5 else 1)
  if ns ≠ st.status then
    { name := name, status := ns, latency_s := latency, changed_at := now }
  else
    { name := name, status := st.status, latency_s := latency, changed_at := st.changed_at }

/-- Transition function as the claim words it (`Modelled from the
claim, for comparison`): the `Degraded` to `Connected` outcome occupies
the 18-percent-wide band directly above the 4-percent disconnect band,
i.e. the draw interval `[0.04, 0.22)`. -/
def claimedNextStatus (status : String) (roll : ℚ) : String :=
  if status = "Connected" ∧ roll < 2/100 then "Degraded"
  else if status = "Degraded" ∧ roll < 4/100 then "Disconnected"
  else if status = "Degraded" ∧ roll < 4/100 + 18/100 then "Connected"
  else if status = "Disconnected" ∧ roll < 12/100 then "Connected"
  else status

/-! ## Simulator price/volume tick and quote synthesis
(src/core/simulator.py lines 40-84) -/

/-- Structure `PairState` from simulator.py. -/
structure PairState where
  base_price : ℚ
  volume_24h : ℚ
  last_update : ℚ
deriving DecidableEq, Repr

/-- The per-pair state update of `MarketSimulator.tick` (lines 45-48):
bounded multiplicative drift floored at `0.01` for the price and `500`
for the volume.  `drift` and `volDrift` are the two `uniform(-0.6, 0.6)`
and `uniform(-0.8, 0.8)` draws. -/
def tickPairState (state : PairState) (drift volDrift now : ℚ) : PairState :=
  { base_price := max (1/100) (state.base_price * (1 + drift / 100))
    volume_24h := max 500 (state.volume_24h * (1 + volDrift / 100))
    last_update := now }

/-- Model of `MarketSimulator._make_quote`: `biasDraw` is the
`uniform(-jitter, jitter)` draw, `spreadDraw` the `uniform(0.05, 0.2)`
draw, `volDraw` the `uniform(0.7, 1.3)` draw. -/
def makeQuote (exchange pair : String) (state : PairState) (now : ℚ)
    (jitter biasDraw spreadDraw volDraw : ℚ) : QuoteSnapshot :=
  let exchangeBias := 1 + biasDraw / 100
  let mid := state.base_price * exchangeBias
  let spread := max (5/10000) (spreadDraw / 100)
  { exchange := exchange
    pair := pair
    bid := mid * (1 - spread)
    ask := mid * (1 + spread)
    volume_24h := state.volume_24h * volDraw
    timestamp := now }

/-! ## Pair generation (src/core/simulator.py lines 86-117)

`_generate_pairs` keeps sampling until it has `randint(220, 380)`
distinct pair strings.  The loop is modelled with explicit fuel and an
arbitrary oracle for the PRNG's choices; `none` means the loop has not
finished within the given fuel. -/

/-- The 14-symbol base pool (simulator.py lines 87-102). -/
def basesList : List String :=
  ["BTC", "ETH", "SOL", "XRP", "ADA", "DOT", "AVAX", "MATIC",
   "LTC", "LINK", "ATOM", "NEAR", "APT", "SUI"]

/-- The quote pool (simulator.py line 103). -/
def quotesList : List String := ["USDT", "USD", "BTC", "ETH"]

/-- The leveraged-token markers (simulator.py line 104). -/
def leveragedList : List String := ["UP", "DOWN"]

/-- Model of `random.choice(l)`: an element of the nonempty list `l`, the PRNG
draw modelled as an arbitrary index reduced modulo the length. -/
def pyChoice (l : List String) (i : Nat) : String :=
  l.getD (i % l.length) ""

/-- One PRNG round of the `_generate_pairs` loop body: the two
`choice` draws, whether `random() < 0.12` hit, and the `choice` draw
over the leveraged markers. -/
structure GenDraw where
  baseIdx : Nat
  quoteIdx : Nat
  levHit : Bool
  levIdx : Nat

/-- One iteration of the `while len(pairs) < total` body
(simulator.py lines 107-116). -/
def genStep (d : GenDraw) (pairs : List String) : List String :=
  let base := pyChoice basesList d.baseIdx
  let quote := pyChoice quotesList d.quoteIdx
  if base = quote then pairs
  else
    let pair :=
      if d.levHit then base ++ pyChoice leveragedList d.levIdx ++ "/" ++ quote
      else base ++ "/" ++ quote
    if pair ∈ pairs then pairs else pairs ++ [pair]

/-- The `_generate_pairs` sampling loop with fuel: returns the pair
list once `total ≤ len(pairs)`, or `none` if the fuel runs out first. -/
def genLoop (oracle : Nat → GenDraw) (total : Nat) :
    Nat → List String → Option (List String)
  | 0, pairs => if pairs.length < total then none else some pairs
  | fuel + 1, pairs =>
      if pairs.length < total then
        genLoop oracle total fuel (genStep (oracle fuel) pairs)
      else some pairs

/-- Every pair string the loop body can ever produce: a base distinct
from the quote, optionally suffixed with a leveraged marker. -/
def allPossiblePairs : List String :=
  basesList.flatMap fun b =>
    quotesList.flatMap fun q =>
      if b = q then []
      else [b ++ "/" ++ q, b ++ "UP" ++ "/" ++ q, b ++ "DOWN" ++ "/" ++ q]

/-! ## Venue client attribute bug (src/core/data_provider.py lines 26-32)

`SimulatorClient.get_best_quotes` calls `self._simulator.last_quotes()`,
an attribute `MarketSimulator` never defines; Python attribute lookup is
modelled over the simulator's declared attribute names. -/

/-- Every attribute resolvable on a `MarketSimulator` instance: the
instance attributes assigned in `__init__` and the methods defined on
the class (src/core/simulator.py lines 18-170). -/
def marketSimulatorAttrs : List String :=
  ["_rand", "_pairs", "_state", "_last_quotes", "_exchange_status",
   "__init__", "pairs", "statuses", "refresh_pairs", "tick",
   "_make_quote", "_generate_pairs", "_refresh_pairs",
   "_maybe_toggle_status"]

/-- Python attribute lookup: `AttributeError` when the name is not
among the object's attributes. -/
def pyGetAttr (attrs : List String) (name : String) : Except String Unit :=
  if name ∈ attrs then .ok () else .error ("AttributeError: " ++ name)

/-- Model of `SimulatorClient.get_best_quotes`: resolves
`self._simulator.last_quotes` first, then would filter the quote map
down to the requested pairs for this client's venue name. -/
def simClientGetBestQuotes
    (lastQuotes : List (String × List (String × QuoteSnapshot)))
    (clientName : String) (pairs : List String) :
    Except String (List (String × QuoteSnapshot)) :=
  (pyGetAttr marketSimulatorAttrs "last_quotes").bind fun _ =>
    .ok (pairs.foldl (fun acc pair =>
      match (lastQuotes.lookup pair).bind fun m => m.lookup clientName with
      | some q => acc ++ [(pair, q)]
      | none => acc) [])

/-- Structure `ProviderSnapshot` from src/core/data_provider.py. -/
structure ProviderSnapshot where
  quotes : List (String × (Option QuoteSnapshot × Option QuoteSnapshot))
  statuses : StatusMap
  pair_count : Nat
  mode : String
deriving DecidableEq, Repr

/-- Model of `DataProvider.tick` (data_provider.py lines 105-117): in Simulator
mode, advance the simulator and ask each venue client for each tracked
pair's quote; any raised exception propagates. -/
def dataProviderTick (mode : String) (provPairs : List String)
    (lastQuotes : List (String × List (String × QuoteSnapshot)))
    (statuses : StatusMap) : Except String ProviderSnapshot :=
  if mode = "Simulator" then
    (provPairs.foldlM (fun acc pair => do
        let bq ← simClientGetBestQuotes lastQuotes "Binance" [pair]
        let pq ← simClientGetBestQuotes lastQuotes "Poloniex" [pair]
        pure (acc ++ [(pair, (bq.lookup pair, pq.lookup pair))]))
      ([] : List (String × (Option QuoteSnapshot × Option QuoteSnapshot)))).map
      fun quotes =>
        { quotes := quotes, statuses := statuses,
          pair_count := provPairs.length, mode := mode }
  else
    .ok { quotes := [], statuses := statuses, pair_count := 0, mode := mode }

/-! ## ArbRow field mismatch
(src/core/types.py lines 16-33 vs src/core/controller.py lines 141-162) -/

/-- The fields declared on the frozen dataclass `ArbRow` in
src/core/types.py. -/
def arbRowDataclassFields : List String :=
  ["pair", "buy_exchange", "buy_price", "sell_exchange", "sell_price",
   "profit_pct", "volume_24h", "updated_secs", "spread", "quality",
   "quality_flags", "binance_bid", "binance_ask", "poloniex_bid",
   "poloniex_ask", "data_source"]

/-- The keyword arguments `RadarController.refresh` supplies at its
`ArbRow(...)` call (controller.py lines 142-161). -/
def controllerArbRowKwargs : List String :=
  ["favorite", "pair", "buy_exchange", "buy_price", "sell_exchange",
   "sell_price", "profit_pct", "volume_24h", "updated_secs", "spread",
   "quality", "quality_flags", "updated_ts", "binance_bid",
   "binance_ask", "poloniex_bid", "poloniex_ask", "data_source"]

/-- A Python-dataclass `__init__` call: it accepts exactly the declared
fields as keywords and raises `TypeError` on any unexpected one. -/
def dataclassKwargsCheck (fields kwargs : List String) :
    Except String Unit :=
  match kwargs.find? (fun k => !fields.contains k) with
  | some k => .error ("TypeError: unexpected keyword argument " ++ k)
  | none =>
    match fields.find? (fun f => !kwargs.contains f) with
    | some f => .error ("TypeError: missing required argument " ++ f)
    | none => .ok ()

/-! ## Filter / rank pipeline (src/core/controller.py lines 182-216) -/

/-- Model of `RadarController._is_leveraged`: the base asset token ends in `UP`
or `DOWN` (`pair.split("/")[0]`). -/
def isLeveraged (pair : String) : Bool :=
  let base := (pair.splitOn "/").headD ""
  base.endsWith "UP" || base.endsWith "DOWN"

/-- Model of `RadarController._passes_pair_filters`. -/
def passesPairFilters (f : FilterSettings) (row : ArbRow) : Bool :=
  if f.only_usdt && !row.pair.endsWith "/USDT" then false
  else if f.exclude_leveraged && isLeveraged row.pair then false
  else true

/-- Model of `RadarController._is_signal`: profit above the minimum-profit
threshold and neither routing venue `Disconnected`. -/
def isSignal (f : FilterSettings) (statuses : StatusMap) (row : ArbRow) : Bool :=
  if row.profit_pct < f.min_profit then false
  else if statuses.statusOf row.buy_exchange = "Disconnected" then false
  else if statuses.statusOf row.sell_exchange = "Disconnected" then false
  else true

/-- The comparison used by `filtered.sort(key=profit_pct, reverse=True)`:
descending by profit, stable on ties. -/
def profitDescBool (a b : ArbRow) : Bool := decide (b.profit_pct ≤ a.profit_pct)

/-- The comparison used by the final `filtered.sort(key=pair)`:
ascending by pair identifier, stable on ties. -/
def pairAscBool (a b : ArbRow) : Bool := decide (a.pair ≤ b.pair)

/-- The pre-filter stage of `_apply_filters`: volume floor, pair-level
filters, then the optional signals-only and favorites-only filters. -/
def preFiltered (f : FilterSettings) (statuses : StatusMap)
    (rows : List ArbRow) : List ArbRow :=
  let filtered := rows.filter fun row =>
    decide (f.min_volume ≤ row.volume_24h) && passesPairFilters f row
  let filtered :=
    if f.show_only_signals then filtered.filter (isSignal f statuses) else filtered
  if f.show_favorites_only then filtered.filter (·.favorite) else filtered

/-- Python's `l[:n]` for an `int` bound `n` (negative bounds count from
the end). -/
def pySliceTo (n : Int) (l : List ArbRow) : List ArbRow :=
  if 0 ≤ n then l.take n.toNat else l.take (l.length - n.natAbs)

/-- Model of `RadarController._apply_filters`: pre-filters, stable descending
sort by profit, truncation gated on the *truthiness* of `top_n`
(`if self._filters.top_n:`), then a stable ascending re-sort by pair. -/
def applyFilters (f : FilterSettings) (statuses : StatusMap)
    (rows : List ArbRow) : List ArbRow :=
  let ranked := (preFiltered f statuses rows).mergeSort profitDescBool
  let truncated :=
    match f.top_n with
    | some n => if n ≠ 0 then pySliceTo n ranked else ranked
    | none => ranked
  truncated.mergeSort pairAscBool

/-- Filter settings with `top_n = 0` — "set", but falsy in Python. -/
def zeroTopSettings : FilterSettings :=
  { top_n := some 0, min_profit := 0, min_volume := 0, only_usdt := false,
    exclude_leveraged := false, show_only_signals := false,
    show_favorites_only := false, cooldown_seconds := 5,
    max_profit_suspicious := 5, stale_sec := 3, update_interval_ms := 500,
    data_source := "Simulator" }

/-- A both-venues-Connected status snapshot. -/
def connStatuses : StatusMap :=
  ⟨⟨"Binance", "Connected", 0, 0⟩, ⟨"Poloniex", "Connected", 0, 0⟩⟩

/-- A plain passing row. -/
def sampleRow : ArbRow :=
  { favorite := false, pair := "BTC/USDT", buy_exchange := "Binance",
    buy_price := 100, sell_exchange := "Poloniex", sell_price := 101,
    profit_pct := 1, volume_24h := 1000, updated_secs := 0, spread := 1,
    quality := "OK", quality_flags := [], updated_ts := 0,
    binance_bid := 99, binance_ask := 100, poloniex_bid := 101,
    poloniex_ask := 102, data_source := "Simulator" }

/-! ## Alert throttling and controller state
(src/core/controller.py lines 33-101 and 251-263) -/

/-- Model of `self._pair_log_cooldown.get(pair, 0)` over an association list. -/
def cooldownGet (cd : List (String × ℚ)) (pair : String) : ℚ :=
  ((cd.find? fun e => e.1 == pair).map (·.2)).getD 0

/-- Model of `self._pair_log_cooldown[pair] = t`. -/
def cooldownSet (cd : List (String × ℚ)) (pair : String) (t : ℚ) :
    List (String × ℚ) :=
  (pair, t) :: cd.filter fun e => !(e.1 == pair)

/-- Count of log events carrying a given level. -/
def countLevel (logs : List (String × String)) (level : String) : Nat :=
  logs.countP fun e => e.1 == level

/-- One row of the `RadarController._log_signals` loop: skip a
non-signal row, skip while `now - last < cooldown_seconds`, otherwise
stamp the pair and emit one SIGNAL event.  The alert text's price
formatting is abstracted to the pair identifier; the claims depend only
on the event level and its pair. -/
def logSignalStep (f : FilterSettings) (statuses : StatusMap) (now : ℚ)
    (acc : List (String × ℚ) × List (String × String)) (row : ArbRow) :
    List (String × ℚ) × List (String × String) :=
  if isSignal f statuses row = false then acc
  else if now - cooldownGet acc.1 row.pair < (f.cooldown_seconds : ℚ) then acc
  else (cooldownSet acc.1 row.pair now, acc.2 ++ [("SIGNAL", row.pair)])

/-- Model of `RadarController._log_signals` over a published row list. -/
def logSignals (f : FilterSettings) (statuses : StatusMap) (now : ℚ)
    (rows : List ArbRow) (cd : List (String × ℚ))
    (logs : List (String × String)) :
    List (String × ℚ) × List (String × String) :=
  rows.foldl (logSignalStep f statuses now) (cd, logs)

/-- The controller state retained across ticks
(`RadarController.__init__`, controller.py lines 33-64), together with
the externally observable log stream.  `lastStatusBinance` and
`lastStatusPoloniex` are the `_last_statuses` dict entries. -/
structure CtrlState where
  providerMode : String
  lastUpdate : ℚ
  lastTickTime : ℚ
  pairLogCooldown : List (String × ℚ)
  lastStatusBinance : Option String
  lastStatusPoloniex : Option String
  lastRows : List ArbRow
  lastStatusSnapshot : StatusMap
  lastPairCount : Nat
  lastAgeBinance : Option ℚ
  lastAgePoloniex : Option ℚ
  logs : List (String × String)
deriving DecidableEq, Repr

/-- Model of `RadarController.refresh_pairs` (controller.py lines 76-80): clear
the per-pair cooldown map and log one INFO event. -/
def ctrlRefreshPairs (st : CtrlState) : CtrlState :=
  { st with
    pairLogCooldown := ([] : List (String × ℚ)),
    logs := st.logs ++ [("INFO", "Refresh pairs")] }

/-- Model of `RadarController._set_provider_mode` (controller.py lines 96-101):
a no-op on an unchanged mode, otherwise switch, clear the cooldown map
and log one INFO event. -/
def ctrlSetProviderMode (mode : String) (st : CtrlState) : CtrlState :=
  if st.providerMode = mode then st
  else
    { st with
      providerMode := mode,
      pairLogCooldown := ([] : List (String × ℚ)),
      logs := st.logs ++ [("INFO", "Provider mode: " ++ mode)] }

/-- Settings used by the throttling example: no filters, cooldown 5s. -/
def exampleSettings : FilterSettings :=
  { zeroTopSettings with top_n := none }

/-! ## The tick boundary (src/core/controller.py lines 103-180)

`RadarController.refresh` wraps the whole tick body in one
`try/except`.  The body is modelled as a sequence of stages; a fault
injected at a stage stands for an exception surfacing from that stage's
external call (provider tick, logging sink, model update, Qt signal
emission), with the state writes that the code performs before the
failing call kept — the code has no rollback. -/

/-- One venue's `_log_status_changes` line: emitted only when a previous
label exists, is truthy, and differs from the current one. -/
def statusChangeLine (last : Option String) (name current : String) :
    List (String × String) :=
  match last with
  | some s =>
      if s ≠ "" ∧ s ≠ current then [("INFO", name ++ " status → " ++ current)]
      else []
  | none => []

/-- Model of `RadarController._log_status_changes` (controller.py lines
265-270). -/
def statusChangeLogs (statuses : StatusMap) (st : CtrlState) : CtrlState :=
  { st with
    lastStatusBinance := some statuses.binance.status,
    lastStatusPoloniex := some statuses.poloniex.status,
    logs := st.logs ++
      statusChangeLine st.lastStatusBinance "Binance" statuses.binance.status ++
      statusChangeLine st.lastStatusPoloniex "Poloniex" statuses.poloniex.status }

/-- The row-assembly loop of `refresh` (controller.py lines 110-162):
pairs missing either venue's quote are skipped. -/
def assembleRows (minVolume staleSec maxProfitSuspicious : ℚ)
    (statuses : StatusMap) (favFn : String → Bool) (dataSource : String)
    (now : ℚ)
    (quotes : List (String × (Option QuoteSnapshot × Option QuoteSnapshot))) :
    List ArbRow :=
  quotes.foldl
    (fun rows entry =>
      match entry.2.1, entry.2.2 with
      | some b, some p =>
          rows ++ [mkArbRow minVolume staleSec maxProfitSuspicious statuses
            favFn dataSource now entry.1 b p]
      | _, _ => rows)
    []

/-- The `last_exchange_ts` accumulation of `refresh` (lines 111-118). -/
def lastExchangeTs
    (quotes : List (String × (Option QuoteSnapshot × Option QuoteSnapshot))) :
    ℚ × ℚ :=
  quotes.foldl
    (fun acc entry =>
      match entry.2.1, entry.2.2 with
      | some b, some p => (max acc.1 b.timestamp, max acc.2 p.timestamp)
      | _, _ => acc)
    (0, 0)

/-- The `except` handler of `refresh` (lines 179-180): exactly one
ERROR event, no re-raise. -/
def ctrlErrLog (st : CtrlState) : CtrlState :=
  { st with logs := st.logs ++ [("ERROR", "Controller tick failed")] }

/-- The end-of-tick assignment block of `refresh` (lines 168-176). -/
def applyAssignStage (f : FilterSettings) (staleSec maxProfitSuspicious : ℚ)
    (favFn : String → Bool) (now : ℚ) (snap : ProviderSnapshot)
    (st : CtrlState) : CtrlState :=
  let rows := assembleRows f.min_volume staleSec maxProfitSuspicious
    snap.statuses favFn snap.mode now snap.quotes
  let ts := lastExchangeTs snap.quotes
  { st with
    lastUpdate := now,
    lastTickTime := now,
    lastRows := rows,
    lastStatusSnapshot := snap.statuses,
    lastPairCount := snap.pair_count,
    lastAgeBinance := if 0 < ts.1 then some (now - ts.1) else none,
    lastAgePoloniex := if 0 < ts.2 then some (now - ts.2) else none }

/-- The `_log_signals(filtered, statuses, now)` stage of `refresh`
(line 178). -/
def applySignalStage (f : FilterSettings) (staleSec maxProfitSuspicious : ℚ)
    (favFn : String → Bool) (now : ℚ) (snap : ProviderSnapshot)
    (st : CtrlState) : CtrlState :=
  let rows := assembleRows f.min_volume staleSec maxProfitSuspicious
    snap.statuses favFn snap.mode now snap.quotes
  let filtered := applyFilters f snap.statuses rows
  let res := logSignals f snap.statuses now filtered st.pairLogCooldown st.logs
  { st with pairLogCooldown := res.1, logs := res.2 }

/-- The external calls of the tick body, in source order. -/
inductive TickStep
  | providerTick
  | statusLog
  | rowAssembly
  | updateRows
  | emitUpdate
  | signalLog
deriving DecidableEq, Repr

/-- Model of `RadarController.refresh` with fault injection: `some s` means the
external call of stage `s` raised, after which the handler appends one
ERROR event; `none` is a clean tick. -/
def refreshModel (f : FilterSettings) (staleSec maxProfitSuspicious : ℚ)
    (favFn : String → Bool) (now : ℚ) (snap : ProviderSnapshot)
    (failAt : Option TickStep) (st : CtrlState) : CtrlState :=
  match failAt with
  | some TickStep.providerTick => ctrlErrLog st
  | some TickStep.statusLog => ctrlErrLog (statusChangeLogs snap.statuses st)
  | some TickStep.rowAssembly => ctrlErrLog (statusChangeLogs snap.statuses st)
  | some TickStep.updateRows => ctrlErrLog (statusChangeLogs snap.statuses st)
  | some TickStep.emitUpdate =>
      ctrlErrLog (applyAssignStage f staleSec maxProfitSuspicious favFn now snap
        (statusChangeLogs snap.statuses st))
  | some TickStep.signalLog =>
      ctrlErrLog (applySignalStage f staleSec maxProfitSuspicious favFn now snap
        (applyAssignStage f staleSec maxProfitSuspicious favFn now snap
          (statusChangeLogs snap.statuses st)))
  | none =>
      applySignalStage f staleSec maxProfitSuspicious favFn now snap
        (applyAssignStage f staleSec maxProfitSuspicious favFn now snap
          (statusChangeLogs snap.statuses st))

/-- Binance-side quote for the tick-failure scenario. -/
def quoteB : QuoteSnapshot := ⟨"Binance", "BTC/USDT", 99, 100, 1000, 9⟩

/-- Poloniex-side quote for the tick-failure scenario. -/
def quoteP : QuoteSnapshot := ⟨"Poloniex", "BTC/USDT", 101, 102, 1200, 9⟩

/-- A one-pair Simulator snapshot. -/
def snapEx : ProviderSnapshot :=
  { quotes := [("BTC/USDT", (some quoteB, some quoteP))],
    statuses := connStatuses, pair_count := 1, mode := "Simulator" }

/-- A freshly initialised controller state. -/
def stEx : CtrlState :=
  { providerMode := "Simulator", lastUpdate := 0, lastTickTime := 0,
    pairLogCooldown := [], lastStatusBinance := none,
    lastStatusPoloniex := none, lastRows := [],
    lastStatusSnapshot := connStatuses, lastPairCount := 0,
    lastAgeBinance := none, lastAgePoloniex := none, logs := [] }

/-! ## Theorems -/

/-- Claim C5: routing yields `buyPrice = min(asks)` and
`sellPrice = max(bids)`, with default buy Binance / default sell
Poloniex, each side switching only on a strict inequality; the two
switches are independent, so the buy and sell venue may coincide. -/
theorem routing_min_max :
    (∀ binance poloniex : QuoteSnapshot,
      (routeBuy binance poloniex).2 = min binance.ask poloniex.ask ∧
      (routeSell binance poloniex).2 = max binance.bid poloniex.bid ∧
      ((routeBuy binance poloniex).1 = "Poloniex" ↔ poloniex.ask < binance.ask) ∧
      ((routeBuy binance poloniex).1 = "Binance" ↔ ¬poloniex.ask < binance.ask) ∧
      ((routeSell binance poloniex).1 = "Binance" ↔ poloniex.bid < binance.bid) ∧
      ((routeSell binance poloniex).1 = "Poloniex" ↔ ¬poloniex.bid < binance.bid)) ∧
    (∃ binance poloniex : QuoteSnapshot,
      (routeBuy binance poloniex).1 = (routeSell binance poloniex).1) := by
  constructor
  · intro binance poloniex
    unfold routeBuy routeSell
    rcases lt_or_ge poloniex.ask binance.ask with hba | hba <;>
      rcases lt_or_ge poloniex.bid binance.bid with hbb | hbb <;>
        simp [hba, hbb, not_lt.mpr, min_def, max_def, le_of_lt] <;>
          linarith
  · refine ⟨⟨"Binance", "X/Y", 1, 10, 0, 0⟩, ⟨"Poloniex", "X/Y", 2, 5, 0, 0⟩, ?_⟩
    decide

/-- Claim C6: every computed row's stored profit percentage equals
`((sellPrice - buyPrice) / buyPrice) * 100` recomputed from the row's
own buy/sell price fields, and the value is signed: with a positive buy
price it is negative exactly when the sell price is below the buy price
(no clamping to zero). -/
theorem profit_roundtrip_signed
    (minVolume staleSec maxProfitSuspicious : ℚ) (statuses : StatusMap)
    (favFn : String → Bool) (dataSource : String) (now : ℚ) (pair : String)
    (binance poloniex : QuoteSnapshot) :
    (mkArbRow minVolume staleSec maxProfitSuspicious statuses favFn dataSource
        now pair binance poloniex).profit_pct =
      (((mkArbRow minVolume staleSec maxProfitSuspicious statuses favFn dataSource
          now pair binance poloniex).sell_price -
        (mkArbRow minVolume staleSec maxProfitSuspicious statuses favFn dataSource
          now pair binance poloniex).buy_price) /
        (mkArbRow minVolume staleSec maxProfitSuspicious statuses favFn dataSource
          now pair binance poloniex).buy_price) * 100 ∧
    (0 < (mkArbRow minVolume staleSec maxProfitSuspicious statuses favFn dataSource
        now pair binance poloniex).buy_price →
      ((mkArbRow minVolume staleSec maxProfitSuspicious statuses favFn dataSource
          now pair binance poloniex).profit_pct < 0 ↔
        (mkArbRow minVolume staleSec maxProfitSuspicious statuses favFn dataSource
            now pair binance poloniex).sell_price <
          (mkArbRow minVolume staleSec maxProfitSuspicious statuses favFn dataSource
            now pair binance poloniex).buy_price)) := by
  constructor
  · rfl
  · intro hbuy
    simp only [mkArbRow]
    constructor
    · intro hneg
      by_contra hge
      push_neg at hge
      have hnum : (0:ℚ) ≤ (routeSell binance poloniex).2 - (routeBuy binance poloniex).2 := by
        simpa [mkArbRow] using sub_nonneg.mpr hge
      have : (0:ℚ) ≤ ((routeSell binance poloniex).2 - (routeBuy binance poloniex).2) /
          (routeBuy binance poloniex).2 * 100 := by
        have hb : (0:ℚ) < (routeBuy binance poloniex).2 := by simpa [mkArbRow] using hbuy
        positivity
      simp only [mkArbRow] at hneg
      linarith
    · intro hlt
      have hb : (0:ℚ) < (routeBuy binance poloniex).2 := by simpa [mkArbRow] using hbuy
      have hnum : (routeSell binance poloniex).2 - (routeBuy binance poloniex).2 < 0 := by
        have := hlt
        simp only [mkArbRow] at this
        linarith
      have hdiv : ((routeSell binance poloniex).2 - (routeBuy binance poloniex).2) /
          (routeBuy binance poloniex).2 < 0 := div_neg_of_neg_of_pos hnum hb
      have : ((routeSell binance poloniex).2 - (routeBuy binance poloniex).2) /
          (routeBuy binance poloniex).2 * 100 < 0 := by linarith
      simpa [mkArbRow] using this

/-- Witness for `profit_roundtrip_signed`: a concrete negative-profit
row (Binance ask 10, Poloniex bid 2) keeps its negative sign. -/
theorem profit_roundtrip_signed_witness :
    (0:ℚ) <
      (mkArbRow 0 3 5 ⟨⟨"Binance", "Connected", 0, 0⟩, ⟨"Poloniex", "Connected", 0, 0⟩⟩
        (fun _ => false) "Simulator" 0 "X/Y"
        ⟨"Binance", "X/Y", 1, 10, 0, 0⟩ ⟨"Poloniex", "X/Y", 2, 11, 0, 0⟩).buy_price ∧
    ((mkArbRow 0 3 5 ⟨⟨"Binance", "Connected", 0, 0⟩, ⟨"Poloniex", "Connected", 0, 0⟩⟩
        (fun _ => false) "Simulator" 0 "X/Y"
        ⟨"Binance", "X/Y", 1, 10, 0, 0⟩ ⟨"Poloniex", "X/Y", 2, 11, 0, 0⟩).profit_pct < 0 ↔
      (mkArbRow 0 3 5 ⟨⟨"Binance", "Connected", 0, 0⟩, ⟨"Poloniex", "Connected", 0, 0⟩⟩
          (fun _ => false) "Simulator" 0 "X/Y"
          ⟨"Binance", "X/Y", 1, 10, 0, 0⟩ ⟨"Poloniex", "X/Y", 2, 11, 0, 0⟩).sell_price <
        (mkArbRow 0 3 5 ⟨⟨"Binance", "Connected", 0, 0⟩, ⟨"Poloniex", "Connected", 0, 0⟩⟩
          (fun _ => false) "Simulator" 0 "X/Y"
          ⟨"Binance", "X/Y", 1, 10, 0, 0⟩ ⟨"Poloniex", "X/Y", 2, 11, 0, 0⟩).buy_price) := by
  refine ⟨by decide, ?_⟩
  exact (profit_roundtrip_signed 0 3 5
    ⟨⟨"Binance", "Connected", 0, 0⟩, ⟨"Poloniex", "Connected", 0, 0⟩⟩
    (fun _ => false) "Simulator" 0 "X/Y"
    ⟨"Binance", "X/Y", 1, 10, 0, 0⟩ ⟨"Poloniex", "X/Y", 2, 11, 0, 0⟩).2 (by decide)

/-- Counterexample to claim C9 as stated: at draw `0.20` a `Degraded`
venue stays `Degraded` in the code, while the claimed 18-percent-wide
recovery band above the 4-percent disconnect band would make it
`Connected`. -/
theorem degraded_band_counterexample :
    nextStatus "Degraded" (20/100) = "Degraded" ∧
    claimedNextStatus "Degraded" (20/100) = "Connected" ∧
    nextStatus "Degraded" (20/100) ≠ claimedNextStatus "Degraded" (20/100) := by
  have h₁ : nextStatus "Degraded" (20/100) = "Degraded" := by
    norm_num [nextStatus]
  have h₂ : claimedNextStatus "Degraded" (20/100) = "Connected" := by
    norm_num [claimedNextStatus]
  refine ⟨h₁, h₂, ?_⟩
  rw [h₁, h₂]
  decide

/-- Claim C9 (amended): one draw per venue per tick is compared against
cumulative thresholds: `Connected` degrades on `roll < 0.02`;
`Degraded` disconnects on `roll < 0.04` and recovers exactly when the
draw lies in the 14-percent-wide band `[0.04, 0.18)` (the `0.18`
threshold is cumulative, not 18 percent in addition to the disconnect
band); `Disconnected` recovers on `roll < 0.12`; and `changed_at` is
updated only on an actual state change. -/
theorem status_machine_characterization :
    (∀ roll : ℚ,
      nextStatus "Connected" roll = (if roll < 2/100 then "Degraded" else "Connected") ∧
      nextStatus "Degraded" roll =
        (if roll < 4/100 then "Disconnected"
         else if roll < 18/100 then "Connected" else "Degraded") ∧
      (nextStatus "Degraded" roll = "Connected" ↔ 4/100 ≤ roll ∧ roll < 18/100) ∧
      nextStatus "Disconnected" roll = (if roll < 12/100 then "Connected" else "Disconnected")) ∧
    (∀ (name : String) (st : ExchangeStatus) (roll now : ℚ),
      (toggleStatus name st roll now).status = nextStatus st.status roll ∧
      (toggleStatus name st roll now).changed_at =
        (if nextStatus st.status roll ≠ st.status then now else st.changed_at)) := by
  constructor
  · intro roll
    refine ⟨?_, ?_, ?_, ?_⟩
    · by_cases h : roll < 2/100 <;> simp [nextStatus, h]
    · by_cases h4 : roll < 4/100 <;> by_cases h18 : roll < 18/100 <;>
        simp [nextStatus, h4, h18] <;> linarith
    · constructor
      · intro h
        by_cases h4 : roll < 4/100
        · simp [nextStatus, h4] at h
        · by_cases h18 : roll < 18/100
          · exact ⟨le_of_not_lt h4, h18⟩
          · simp [nextStatus, h4, h18] at h
      · rintro ⟨hge, hlt⟩
        have h4 : ¬roll < 4/100 := not_lt.mpr hge
        simp [nextStatus, h4, hlt]
    · by_cases h : roll < 12/100 <;> simp [nextStatus, h]
  · intro name st roll now
    by_cases h : nextStatus st.status roll = st.status <;>
      simp [toggleStatus, h]

/-- Claim C10: after a tick every pair's base price is at least `0.01`
and its rolling volume at least `500` (unconditionally, from the
`max` floors), and every freshly synthesized quote — jitter band
`0.18` (Connected) or `0.35` (Degraded), bias draw inside the band,
spread draw in `[0.05, 0.2]` — satisfies `0 < bid < ask`. -/
theorem tick_invariants (state : PairState) (drift volDrift now : ℚ)
    (exchange pair : String) (jitter biasDraw spreadDraw volDraw : ℚ)
    (hjit : jitter = 18/100 ∨ jitter = 35/100)
    (hbias₁ : -jitter ≤ biasDraw) (hbias₂ : biasDraw ≤ jitter)
    (hspread₁ : 5/100 ≤ spreadDraw) (hspread₂ : spreadDraw ≤ 2/10) :
    (1/100 : ℚ) ≤ (tickPairState state drift volDrift now).base_price ∧
    (500 : ℚ) ≤ (tickPairState state drift volDrift now).volume_24h ∧
    0 < (makeQuote exchange pair (tickPairState state drift volDrift now) now
        jitter biasDraw spreadDraw volDraw).bid ∧
    (makeQuote exchange pair (tickPairState state drift volDrift now) now
        jitter biasDraw spreadDraw volDraw).bid <
      (makeQuote exchange pair (tickPairState state drift volDrift now) now
        jitter biasDraw spreadDraw volDraw).ask := by
  have hprice : (1/100 : ℚ) ≤ (tickPairState state drift volDrift now).base_price :=
    le_max_left _ _
  have hvol : (500 : ℚ) ≤ (tickPairState state drift volDrift now).volume_24h :=
    le_max_left _ _
  refine ⟨hprice, hvol, ?_, ?_⟩ <;>
  · have hjle : jitter ≤ 35/100 := by rcases hjit with h | h <;> rw [h] <;> norm_num
    have hbias : (0:ℚ) < 1 + biasDraw / 100 := by nlinarith
    have hmid : (0:ℚ) < (tickPairState state drift volDrift now).base_price *
        (1 + biasDraw / 100) := by positivity
    have hsp₁ : (5/10000 : ℚ) ≤ max (5/10000) (spreadDraw / 100) := le_max_left _ _
    have hsp₂ : max (5/10000 : ℚ) (spreadDraw / 100) ≤ 2/1000 := by
      apply max_le <;> nlinarith
    simp only [makeQuote]
    nlinarith [hmid, hsp₁, hsp₂]

/-- Witness for `tick_invariants` at concrete draws: Connected jitter
`0.18`, bias draw `0.1`, spread draw `0.1`. -/
theorem tick_invariants_witness :
    (1/100 : ℚ) ≤ (tickPairState ⟨50, 1000, 0⟩ (1/2) (1/2) 7).base_price ∧
    (500 : ℚ) ≤ (tickPairState ⟨50, 1000, 0⟩ (1/2) (1/2) 7).volume_24h ∧
    0 < (makeQuote "Binance" "BTC/USDT" (tickPairState ⟨50, 1000, 0⟩ (1/2) (1/2) 7) 7
        (18/100) (1/10) (1/10) 1).bid ∧
    (makeQuote "Binance" "BTC/USDT" (tickPairState ⟨50, 1000, 0⟩ (1/2) (1/2) 7) 7
        (18/100) (1/10) (1/10) 1).bid <
      (makeQuote "Binance" "BTC/USDT" (tickPairState ⟨50, 1000, 0⟩ (1/2) (1/2) 7) 7
        (18/100) (1/10) (1/10) 1).ask :=
  tick_invariants ⟨50, 1000, 0⟩ (1/2) (1/2) 7 "Binance" "BTC/USDT"
    (18/100) (1/10) (1/10) 1 (Or.inl rfl)
    (by norm_num) (by norm_num) (by norm_num) (by norm_num)

theorem pyChoice_mem (l : List String) (i : Nat) (h : l ≠ []) :
    pyChoice l i ∈ l := by
  have hlen : 0 < l.length := List.length_pos.mpr h
  have hlt : i % l.length < l.length := Nat.mod_lt _ hlen
  unfold pyChoice
  rw [List.getD_eq_getElem?_getD, List.getElem?_eq_getElem hlt]
  exact List.getElem_mem _

theorem genStep_mem_allPossiblePairs (d : GenDraw) (pairs : List String)
    (hsub : pairs ⊆ allPossiblePairs) :
    genStep d pairs ⊆ allPossiblePairs := by
  unfold genStep
  by_cases heq : pyChoice basesList d.baseIdx = pyChoice quotesList d.quoteIdx
  · simpa [heq] using hsub
  · simp only [if_neg heq]
    set pair :=
      (if d.levHit then
        pyChoice basesList d.baseIdx ++ pyChoice leveragedList d.levIdx ++ "/" ++
          pyChoice quotesList d.quoteIdx
      else pyChoice basesList d.baseIdx ++ "/" ++ pyChoice quotesList d.quoteIdx)
      with hpair
    by_cases hmem : pair ∈ pairs
    · simpa [hmem] using hsub
    · simp only [if_neg hmem]
      intro x hx
      rcases List.mem_append.mp hx with hx | hx
      · exact hsub hx
      · have hxp : x = pair := by simpa using hx
        subst hxp

        have hb : pyChoice basesList d.baseIdx ∈ basesList :=
          pyChoice_mem _ _ (by decide)
        have hq : pyChoice quotesList d.quoteIdx ∈ quotesList :=
          pyChoice_mem _ _ (by decide)
        have hl : pyChoice leveragedList d.levIdx ∈ leveragedList :=
          pyChoice_mem _ _ (by decide)
        apply List.mem_flatMap.mpr
        refine ⟨pyChoice basesList d.baseIdx, hb, ?_⟩
        apply List.mem_flatMap.mpr
        refine ⟨pyChoice quotesList d.quoteIdx, hq, ?_⟩
        rw [if_neg heq, hpair]
        have : pyChoice leveragedList d.levIdx = "UP" ∨
            pyChoice leveragedList d.levIdx = "DOWN" := by
          simpa [leveragedList] using hl
        rcases this with hup | hdown
        · cases d.levHit <;> simp [hup]
        · cases d.levHit <;> simp [hdown]

theorem genStep_nodup (d : GenDraw) (pairs : List String)
    (hnd : pairs.Nodup) : (genStep d pairs).Nodup := by
  unfold genStep
  by_cases heq : pyChoice basesList d.baseIdx = pyChoice quotesList d.quoteIdx
  · simpa [heq] using hnd
  · simp only [if_neg heq]
    set pair :=
      (if d.levHit then
        pyChoice basesList d.baseIdx ++ pyChoice leveragedList d.levIdx ++ "/" ++
          pyChoice quotesList d.quoteIdx
      else pyChoice basesList d.baseIdx ++ "/" ++ pyChoice quotesList d.quoteIdx)
    by_cases hmem : pair ∈ pairs
    · simpa [hmem] using hnd
    · simp only [if_neg hmem]
      rw [List.nodup_append]
      exact ⟨hnd, List.nodup_singleton _, by
        intro x hx hx'
        have : x = pair := by simpa using hx'
        subst this
        exact hmem hx⟩

set_option maxRecDepth 4000 in
theorem allPossiblePairs_length : allPossiblePairs.length = 162 := by decide

theorem pairs_length_le (pairs : List String) (hnd : pairs.Nodup)
    (hsub : pairs ⊆ allPossiblePairs) : pairs.length ≤ 162 := by
  have h := (List.subperm_of_subset hnd hsub).length_le
  have h162 := allPossiblePairs_length
  omega

theorem genLoop_stuck (oracle : Nat → GenDraw) (total : Nat)
    (htotal : 220 ≤ total) :
    ∀ (fuel : Nat) (pairs : List String), pairs.Nodup →
      pairs ⊆ allPossiblePairs → genLoop oracle total fuel pairs = none := by
  intro fuel
  induction fuel with
  | zero =>
    intro pairs hnd hsub
    have hlen : pairs.length ≤ 162 := pairs_length_le pairs hnd hsub
    simp only [genLoop]
    rw [if_pos (by omega)]
  | succ n ih =>
    intro pairs hnd hsub
    have hlen : pairs.length ≤ 162 := pairs_length_le pairs hnd hsub
    simp only [genLoop]
    rw [if_pos (by omega)]
    exact ih _ (genStep_nodup _ _ hnd) (genStep_mem_allPossiblePairs _ _ hsub)

/-- Claim C1 is refuted by the code: `_generate_pairs` never
terminates.  Only 162 distinct pair strings are expressible (14 bases,
4 quotes, `base == quote` rejected before the leveraged suffix is
attached, 3 variants per combination), while the loop requires at
least `randint(220, 380) ≥ 220` distinct entries, so for every seed and
every number of iterations the `while len(pairs) < total` condition
still holds. -/
theorem generate_pairs_never_terminates (oracle : Nat → GenDraw)
    (total : Nat) (htotal : 220 ≤ total) (fuel : Nat) :
    genLoop oracle total fuel [] = none :=
  genLoop_stuck oracle total htotal fuel [] List.nodup_nil
    (List.nil_subset _)

/-- Witness for `generate_pairs_never_terminates` at the smallest
possible count and a concrete oracle. -/
theorem generate_pairs_never_terminates_witness :
    220 ≤ 220 ∧ genLoop (fun _ => ⟨0, 0, false, 0⟩) 220 3 [] = none :=
  ⟨le_refl 220,
    generate_pairs_never_terminates (fun _ => ⟨0, 0, false, 0⟩) 220
      (le_refl 220) 3⟩

/-- Claim C2 is refuted by the code: in Simulator mode, with at least
one tracked pair, `DataProvider.tick` raises `AttributeError` because
`SimulatorClient.get_best_quotes` calls `simulator.last_quotes()` and
`MarketSimulator` defines no such attribute. -/
theorem provider_tick_raises (provPairs : List String)
    (lastQuotes : List (String × List (String × QuoteSnapshot)))
    (statuses : StatusMap) (hne : provPairs ≠ []) :
    dataProviderTick "Simulator" provPairs lastQuotes statuses =
      .error "AttributeError: last_quotes" := by
  obtain ⟨p, rest, rfl⟩ := List.exists_cons_of_ne_nil hne
  have hmem : "last_quotes" ∉ marketSimulatorAttrs := by decide
  have hattr : pyGetAttr marketSimulatorAttrs "last_quotes" =
      .error "AttributeError: last_quotes" := by
    simp [pyGetAttr, hmem]
  simp [dataProviderTick, List.foldlM, simClientGetBestQuotes, hattr,
    Except.bind, Except.map, Bind.bind]

/-- Witness for `provider_tick_raises` with one tracked pair. -/
theorem provider_tick_raises_witness :
    (["BTC/USDT"] : List String) ≠ [] ∧
    dataProviderTick "Simulator" ["BTC/USDT"] []
        ⟨⟨"Binance", "Connected", 0, 0⟩, ⟨"Poloniex", "Connected", 0, 0⟩⟩ =
      .error "AttributeError: last_quotes" :=
  ⟨by decide,
    provider_tick_raises ["BTC/USDT"] []
      ⟨⟨"Binance", "Connected", 0, 0⟩, ⟨"Poloniex", "Connected", 0, 0⟩⟩
      (by decide)⟩

/-- Claim C3 is refuted by the code: the `ArbRow(...)` call in
`RadarController.refresh` supplies the keywords `favorite` and
`updated_ts`, which the frozen dataclass in types.py does not declare,
so the construction raises `TypeError` instead of producing a row. -/
theorem arbrow_construction_raises :
    dataclassKwargsCheck arbRowDataclassFields controllerArbRowKwargs =
      .error "TypeError: unexpected keyword argument favorite" ∧
    "favorite" ∉ arbRowDataclassFields ∧
    "updated_ts" ∉ arbRowDataclassFields ∧
    "favorite" ∈ controllerArbRowKwargs ∧
    "updated_ts" ∈ controllerArbRowKwargs :=
  ⟨rfl, by decide, by decide, by decide, by decide⟩

theorem pairAscBool_trans :
    ∀ a b c : ArbRow, pairAscBool a b → pairAscBool b c → pairAscBool a c := by
  intro a b c hab hbc
  simp only [pairAscBool, decide_eq_true_eq] at *
  exact le_trans hab hbc

theorem pairAscBool_total : ∀ a b : ArbRow, pairAscBool a b || pairAscBool b a := by
  intro a b
  rcases le_total a.pair b.pair with h | h <;> simp [pairAscBool, h]

theorem profitDescBool_trans :
    ∀ a b c : ArbRow, profitDescBool a b → profitDescBool b c → profitDescBool a c := by
  intro a b c hab hbc
  simp only [profitDescBool, decide_eq_true_eq] at *
  exact le_trans hbc hab

theorem profitDescBool_total :
    ∀ a b : ArbRow, profitDescBool a b || profitDescBool b a := by
  intro a b
  rcases le_total a.profit_pct b.profit_pct with h | h <;> simp [profitDescBool, h]

/-- Claim C7 (amended): with `topN` set to a positive `n` the published
list has at most `n` rows, is a permutation of the first `n` rows of
the profit-descending ranking of the pre-filtered set (so membership is
decided by profit rank), every published row's profit is at least that
of every pre-filtered row left out of the ranking prefix, and the list
is re-sorted ascending by pair identifier; with `topN = None` — or `0`,
which the code's truthiness test treats as unset — no truncation
occurs. -/
theorem filter_pipeline_topn :
    (∀ (f : FilterSettings) (statuses : StatusMap) (rows : List ArbRow) (n : Int),
      f.top_n = some n → 0 < n →
        (applyFilters f statuses rows).length ≤ n.toNat ∧
        (applyFilters f statuses rows).Pairwise (fun a b => a.pair ≤ b.pair) ∧
        (applyFilters f statuses rows).Perm
          (((preFiltered f statuses rows).mergeSort profitDescBool).take n.toNat) ∧
        (∀ r ∈ applyFilters f statuses rows, r ∈ preFiltered f statuses rows) ∧
        (∀ r ∈ applyFilters f statuses rows,
          ∀ r' ∈ ((preFiltered f statuses rows).mergeSort profitDescBool).drop n.toNat,
            r'.profit_pct ≤ r.profit_pct)) ∧
    (∀ (f : FilterSettings) (statuses : StatusMap) (rows : List ArbRow),
      f.top_n = none →
        (applyFilters f statuses rows).Perm (preFiltered f statuses rows) ∧
        (applyFilters f statuses rows).Pairwise (fun a b => a.pair ≤ b.pair)) ∧
    (∀ (f : FilterSettings) (statuses : StatusMap) (rows : List ArbRow),
      f.top_n = some 0 →
        (applyFilters f statuses rows).Perm (preFiltered f statuses rows) ∧
        (applyFilters f statuses rows).Pairwise (fun a b => a.pair ≤ b.pair)) := by
  have hsortpair : ∀ l : List ArbRow,
      (l.mergeSort pairAscBool).Pairwise (fun a b => a.pair ≤ b.pair) := by
    intro l
    have h := List.sorted_mergeSort pairAscBool_trans pairAscBool_total l
    exact h.imp fun hab => by simpa [pairAscBool] using hab
  refine ⟨?_, ?_, ?_⟩
  · intro f statuses rows n hsome hpos
    have hne : n ≠ 0 := by omega
    have hslice : pySliceTo n ((preFiltered f statuses rows).mergeSort profitDescBool) =
        ((preFiltered f statuses rows).mergeSort profitDescBool).take n.toNat := by
      unfold pySliceTo
      rw [if_pos (le_of_lt hpos)]
    have happ : applyFilters f statuses rows =
        (((preFiltered f statuses rows).mergeSort profitDescBool).take n.toNat).mergeSort
          pairAscBool := by
      simp only [applyFilters, hsome]
      rw [if_pos hne, hslice]
    set ranked := (preFiltered f statuses rows).mergeSort profitDescBool with hranked
    have hperm : (applyFilters f statuses rows).Perm (ranked.take n.toNat) := by
      rw [happ]; exact List.mergeSort_perm _ _
    refine ⟨?_, ?_, hperm, ?_, ?_⟩
    · calc (applyFilters f statuses rows).length
          = (ranked.take n.toNat).length := hperm.length_eq
        _ ≤ n.toNat := List.length_take_le _ _
    · rw [happ]; exact hsortpair _
    · intro r hr
      have hrtake : r ∈ ranked.take n.toNat := hperm.mem_iff.mp hr
      have hrranked : r ∈ ranked := List.take_subset _ _ hrtake
      have : ranked.Perm (preFiltered f statuses rows) := List.mergeSort_perm _ _
      exact this.mem_iff.mp hrranked
    · intro r hr r' hr'
      have hrtake : r ∈ ranked.take n.toNat := hperm.mem_iff.mp hr
      have hsorted : ranked.Pairwise (fun a b => profitDescBool a b = true) := by
        rw [hranked]
        exact List.sorted_mergeSort profitDescBool_trans profitDescBool_total _
      have hsplit : (ranked.take n.toNat ++ ranked.drop n.toNat).Pairwise
          (fun a b => profitDescBool a b = true) := by
        rw [List.take_append_drop]; exact hsorted
      have hcross := (List.pairwise_append.mp hsplit).2.2
      have := hcross r hrtake r' hr'
      simpa [profitDescBool] using this
  · intro f statuses rows hnone
    have happ : applyFilters f statuses rows =
        ((preFiltered f statuses rows).mergeSort profitDescBool).mergeSort pairAscBool := by
      simp only [applyFilters, hnone]
    constructor
    · rw [happ]
      exact (List.mergeSort_perm _ _).trans (List.mergeSort_perm _ _)
    · rw [happ]; exact hsortpair _
  · intro f statuses rows hzero
    have happ : applyFilters f statuses rows =
        ((preFiltered f statuses rows).mergeSort profitDescBool).mergeSort pairAscBool := by
      simp only [applyFilters, hzero]
      rw [if_neg (by omega : ¬(0:Int) ≠ 0)]
    constructor
    · rw [happ]
      exact (List.mergeSort_perm _ _).trans (List.mergeSort_perm _ _)
    · rw [happ]; exact hsortpair _

/-- Counterexample to claim C7 as stated: with `topN` set to `0` the
published list is *not* truncated to size ≤ 0 — the code's
`if self._filters.top_n:` treats `0` as unset, so one passing row is
still published. -/
theorem topn_zero_counterexample :
    zeroTopSettings.top_n = some 0 ∧
    (applyFilters zeroTopSettings connStatuses [sampleRow]).length = 1 ∧
    ¬(applyFilters zeroTopSettings connStatuses [sampleRow]).length ≤ 0 := by
  have happ : applyFilters zeroTopSettings connStatuses [sampleRow] =
      ((preFiltered zeroTopSettings connStatuses [sampleRow]).mergeSort
        profitDescBool).mergeSort pairAscBool := by
    simp only [applyFilters, zeroTopSettings]
    rw [if_neg (by omega : ¬(0:Int) ≠ 0)]
  have hpre : preFiltered zeroTopSettings connStatuses [sampleRow] = [sampleRow] := by
    decide
  have h : (applyFilters zeroTopSettings connStatuses [sampleRow]).length = 1 := by
    rw [happ]
    have hperm := (List.mergeSort_perm
      ((preFiltered zeroTopSettings connStatuses [sampleRow]).mergeSort profitDescBool)
      pairAscBool).trans
      (List.mergeSort_perm (preFiltered zeroTopSettings connStatuses [sampleRow])
        profitDescBool)
    rw [hperm.length_eq, hpre]
    rfl
  exact ⟨rfl, h, by rw [h]; decide⟩

/-- Witness for `filter_pipeline_topn`: two passing rows, `top_n = 1` —
only the higher-profit row survives, and the `none` branch keeps both. -/
theorem filter_pipeline_topn_witness :
    ({ zeroTopSettings with top_n := some 1 } : FilterSettings).top_n = some 1 ∧
    (0 : Int) < 1 ∧
    (applyFilters { zeroTopSettings with top_n := some 1 } connStatuses
        [sampleRow, { sampleRow with pair := "ETH/USDT", profit_pct := 2 }]).length ≤
      (1 : Int).toNat ∧
    (applyFilters { zeroTopSettings with top_n := some 1 } connStatuses
        [sampleRow, { sampleRow with pair := "ETH/USDT", profit_pct := 2 }]).Perm
      (((preFiltered { zeroTopSettings with top_n := some 1 } connStatuses
          [sampleRow, { sampleRow with pair := "ETH/USDT", profit_pct := 2 }]).mergeSort
          profitDescBool).take (1 : Int).toNat) := by
  have h := (filter_pipeline_topn.1
    { zeroTopSettings with top_n := some 1 } connStatuses
    [sampleRow, { sampleRow with pair := "ETH/USDT", profit_pct := 2 }]
    1 rfl (by decide))
  exact ⟨rfl, by decide, h.1, h.2.2.1⟩

/-- Claim C8: a signal-qualifying row alerts exactly when
`now - last ≥ cooldown_seconds` (with never-alerted pairs defaulting to
`0`); consequently, with cooldown 5s and a session starting at any wall
time `b ≥ 5`, qualifying ticks at `b` and `b+3` produce exactly one
alert and a third at `b+6` produces a second; and the per-pair map is
cleared on pair refresh and on a data-source mode change. -/
theorem alert_throttling :
    (∀ (f : FilterSettings) (statuses : StatusMap) (now : ℚ) (row : ArbRow)
        (cd : List (String × ℚ)) (logs : List (String × String)),
      isSignal f statuses row = true →
        ((f.cooldown_seconds : ℚ) ≤ now - cooldownGet cd row.pair →
          countLevel (logSignals f statuses now [row] cd logs).2 "SIGNAL" =
            countLevel logs "SIGNAL" + 1 ∧
          cooldownGet (logSignals f statuses now [row] cd logs).1 row.pair = now) ∧
        (now - cooldownGet cd row.pair < (f.cooldown_seconds : ℚ) →
          logSignals f statuses now [row] cd logs = (cd, logs))) ∧
    (∀ b : ℚ, 5 ≤ b →
      countLevel
        (logSignals exampleSettings connStatuses (b + 3) [sampleRow]
          (logSignals exampleSettings connStatuses b [sampleRow] [] []).1
          (logSignals exampleSettings connStatuses b [sampleRow] [] []).2).2
        "SIGNAL" = 1 ∧
      countLevel
        (logSignals exampleSettings connStatuses (b + 6) [sampleRow]
          (logSignals exampleSettings connStatuses (b + 3) [sampleRow]
            (logSignals exampleSettings connStatuses b [sampleRow] [] []).1
            (logSignals exampleSettings connStatuses b [sampleRow] [] []).2).1
          (logSignals exampleSettings connStatuses (b + 3) [sampleRow]
            (logSignals exampleSettings connStatuses b [sampleRow] [] []).1
            (logSignals exampleSettings connStatuses b [sampleRow] [] []).2).2).2
        "SIGNAL" = 2) ∧
    (∀ st : CtrlState, (ctrlRefreshPairs st).pairLogCooldown = []) ∧
    (∀ (st : CtrlState) (mode : String), st.providerMode ≠ mode →
      (ctrlSetProviderMode mode st).pairLogCooldown = []) := by
  have hstep : ∀ (f : FilterSettings) (statuses : StatusMap) (now : ℚ)
      (row : ArbRow) (cd : List (String × ℚ)) (logs : List (String × String)),
      isSignal f statuses row = true →
      logSignals f statuses now [row] cd logs =
        (if now - cooldownGet cd row.pair < (f.cooldown_seconds : ℚ) then (cd, logs)
         else (cooldownSet cd row.pair now, logs ++ [("SIGNAL", row.pair)])) := by
    intro f statuses now row cd logs hsig
    simp only [logSignals, logSignalStep, List.foldl, hsig]
    split
    · next h => exact absurd h (by decide)
    · rfl
  have hgetset : ∀ (cd : List (String × ℚ)) (pair : String) (t : ℚ),
      cooldownGet (cooldownSet cd pair t) pair = t := by
    intro cd pair t
    simp [cooldownGet, cooldownSet, List.find?]
  have hcount : ∀ (logs : List (String × String)) (pair : String),
      countLevel (logs ++ [("SIGNAL", pair)]) "SIGNAL" =
        countLevel logs "SIGNAL" + 1 := by
    intro logs pair
    simp [countLevel, List.countP_append, List.countP_cons]
  refine ⟨?_, ?_, ?_, ?_⟩
  · intro f statuses now row cd logs hsig
    constructor
    · intro hle
      rw [hstep f statuses now row cd logs hsig,
        if_neg (by push_neg; exact hle)]
      exact ⟨hcount logs row.pair, hgetset cd row.pair now⟩
    · intro hlt
      rw [hstep f statuses now row cd logs hsig, if_pos hlt]
  · intro b hb
    have hsig : isSignal exampleSettings connStatuses sampleRow = true := by decide
    have hcd : ((exampleSettings.cooldown_seconds : Int) : ℚ) = 5 := by
      norm_num [exampleSettings, zeroTopSettings]
    have hget0 : cooldownGet [] sampleRow.pair = 0 := by rfl
    have h1 : logSignals exampleSettings connStatuses b [sampleRow] [] [] =
        (cooldownSet [] sampleRow.pair b, [] ++ [("SIGNAL", sampleRow.pair)]) := by
      rw [hstep _ _ _ _ _ _ hsig, hget0, hcd, if_neg (by linarith)]
    have hgetb : cooldownGet (cooldownSet [] sampleRow.pair b) sampleRow.pair = b :=
      hgetset [] sampleRow.pair b
    have h2 : logSignals exampleSettings connStatuses (b + 3) [sampleRow]
        (cooldownSet [] sampleRow.pair b) ([] ++ [("SIGNAL", sampleRow.pair)]) =
        (cooldownSet [] sampleRow.pair b, [] ++ [("SIGNAL", sampleRow.pair)]) := by
      rw [hstep _ _ _ _ _ _ hsig, hgetb, hcd, if_pos (by linarith)]
    have h3 : logSignals exampleSettings connStatuses (b + 6) [sampleRow]
        (cooldownSet [] sampleRow.pair b) ([] ++ [("SIGNAL", sampleRow.pair)]) =
        (cooldownSet (cooldownSet [] sampleRow.pair b) sampleRow.pair (b + 6),
          ([] ++ [("SIGNAL", sampleRow.pair)]) ++ [("SIGNAL", sampleRow.pair)]) := by
      rw [hstep _ _ _ _ _ _ hsig, hgetb, hcd, if_neg (by push_neg; linarith)]
    rw [h1, h2, h3]
    constructor
    · rfl
    · rfl
  · intro st
    rfl
  · intro st mode hne
    unfold ctrlSetProviderMode
    rw [if_neg hne]

/-- Witness for `alert_throttling`: the throttled sequence at the
concrete session start `b = 1000`, plus a single-row alert at a pair
whose cooldown entry is stale enough. -/
theorem alert_throttling_witness :
    isSignal exampleSettings connStatuses sampleRow = true ∧
    ((exampleSettings.cooldown_seconds : Int) : ℚ) ≤
      1000 - cooldownGet [] sampleRow.pair ∧
    countLevel
        (logSignals exampleSettings connStatuses 1000 [sampleRow] [] []).2
        "SIGNAL" = countLevel [] "SIGNAL" + 1 ∧
    (5 : ℚ) ≤ 1000 ∧
    countLevel
      (logSignals exampleSettings connStatuses (1000 + 3) [sampleRow]
        (logSignals exampleSettings connStatuses 1000 [sampleRow] [] []).1
        (logSignals exampleSettings connStatuses 1000 [sampleRow] [] []).2).2
      "SIGNAL" = 1 := by
  have hsig : isSignal exampleSettings connStatuses sampleRow = true := by decide
  have hle : ((exampleSettings.cooldown_seconds : Int) : ℚ) ≤
      1000 - cooldownGet [] sampleRow.pair := by
    norm_num [exampleSettings, zeroTopSettings, cooldownGet]
  refine ⟨hsig, hle, ?_, by norm_num, ?_⟩
  · exact ((alert_throttling.1 exampleSettings connStatuses 1000 sampleRow [] []
      hsig).1 hle).1
  · exact (alert_throttling.2.1 1000 (by norm_num)).1

theorem countLevel_append (l₁ l₂ : List (String × String)) (level : String) :
    countLevel (l₁ ++ l₂) level = countLevel l₁ level + countLevel l₂ level := by
  simp [countLevel, List.countP_append]

theorem statusChangeLine_error (last : Option String) (name current : String) :
    countLevel (statusChangeLine last name current) "ERROR" = 0 := by
  cases last with
  | none => rfl
  | some s =>
      unfold statusChangeLine
      split
      · split
        · rfl
        · rfl
      · rfl

theorem statusChangeLogs_error (statuses : StatusMap) (st : CtrlState) :
    countLevel (statusChangeLogs statuses st).logs "ERROR" =
      countLevel st.logs "ERROR" := by
  unfold statusChangeLogs
  simp only [countLevel_append, statusChangeLine_error]
  omega

theorem logSignalStep_error (f : FilterSettings) (statuses : StatusMap)
    (now : ℚ) (acc : List (String × ℚ) × List (String × String))
    (row : ArbRow) :
    countLevel (logSignalStep f statuses now acc row).2 "ERROR" =
      countLevel acc.2 "ERROR" := by
  unfold logSignalStep
  split
  · rfl
  · split
    · rfl
    · simp [countLevel_append, countLevel]

theorem foldl_signalStep_error (f : FilterSettings) (statuses : StatusMap)
    (now : ℚ) :
    ∀ (rows : List ArbRow) (acc : List (String × ℚ) × List (String × String)),
      countLevel (rows.foldl (logSignalStep f statuses now) acc).2 "ERROR" =
        countLevel acc.2 "ERROR" := by
  intro rows
  induction rows with
  | nil => intro acc; rfl
  | cons r rows ih =>
      intro acc
      simp only [List.foldl]
      rw [ih (logSignalStep f statuses now acc r),
        logSignalStep_error]

theorem ctrlErrLog_error (st : CtrlState) :
    countLevel (ctrlErrLog st).logs "ERROR" = countLevel st.logs "ERROR" + 1 := by
  unfold ctrlErrLog
  simp [countLevel_append, countLevel]

/-- Claim C4 (amended): every exception surfacing from a tick stage is
caught at the tick boundary and produces exactly one ERROR event, with
no re-raise; the retained state (last rows, last status snapshot, last
pair count, cooldown map) is unchanged when the exception arises at or
before the model update — an exception in the final emit or
alert-logging stage is still caught and logged once, but the state
assignments the tick already made are kept. -/
theorem tick_failure_policy (f : FilterSettings)
    (staleSec maxProfitSuspicious : ℚ) (favFn : String → Bool) (now : ℚ)
    (snap : ProviderSnapshot) (st : CtrlState) (step : TickStep) :
    countLevel
        (refreshModel f staleSec maxProfitSuspicious favFn now snap
          (some step) st).logs "ERROR" =
      countLevel st.logs "ERROR" + 1 ∧
    (step = TickStep.providerTick ∨ step = TickStep.statusLog ∨
        step = TickStep.rowAssembly ∨ step = TickStep.updateRows →
      (refreshModel f staleSec maxProfitSuspicious favFn now snap
          (some step) st).lastRows = st.lastRows ∧
      (refreshModel f staleSec maxProfitSuspicious favFn now snap
          (some step) st).lastStatusSnapshot = st.lastStatusSnapshot ∧
      (refreshModel f staleSec maxProfitSuspicious favFn now snap
          (some step) st).lastPairCount = st.lastPairCount ∧
      (refreshModel f staleSec maxProfitSuspicious favFn now snap
          (some step) st).pairLogCooldown = st.pairLogCooldown) := by
  cases step with
  | providerTick =>
      exact ⟨ctrlErrLog_error st, fun _ => ⟨rfl, rfl, rfl, rfl⟩⟩
  | statusLog =>
      refine ⟨?_, fun _ => ⟨rfl, rfl, rfl, rfl⟩⟩
      rw [show refreshModel f staleSec maxProfitSuspicious favFn now snap
          (some TickStep.statusLog) st =
          ctrlErrLog (statusChangeLogs snap.statuses st) from rfl,
        ctrlErrLog_error, statusChangeLogs_error]
  | rowAssembly =>
      refine ⟨?_, fun _ => ⟨rfl, rfl, rfl, rfl⟩⟩
      rw [show refreshModel f staleSec maxProfitSuspicious favFn now snap
          (some TickStep.rowAssembly) st =
          ctrlErrLog (statusChangeLogs snap.statuses st) from rfl,
        ctrlErrLog_error, statusChangeLogs_error]
  | updateRows =>
      refine ⟨?_, fun _ => ⟨rfl, rfl, rfl, rfl⟩⟩
      rw [show refreshModel f staleSec maxProfitSuspicious favFn now snap
          (some TickStep.updateRows) st =
          ctrlErrLog (statusChangeLogs snap.statuses st) from rfl,
        ctrlErrLog_error, statusChangeLogs_error]
  | emitUpdate =>
      refine ⟨?_, ?_⟩
      · rw [show refreshModel f staleSec maxProfitSuspicious favFn now snap
            (some TickStep.emitUpdate) st =
            ctrlErrLog (applyAssignStage f staleSec maxProfitSuspicious favFn
              now snap (statusChangeLogs snap.statuses st)) from rfl,
          ctrlErrLog_error]
        have hassign : (applyAssignStage f staleSec maxProfitSuspicious favFn
            now snap (statusChangeLogs snap.statuses st)).logs =
            (statusChangeLogs snap.statuses st).logs := rfl
        rw [hassign, statusChangeLogs_error]
      · rintro (h | h | h | h) <;> exact absurd h (by decide)
  | signalLog =>
      refine ⟨?_, ?_⟩
      · rw [show refreshModel f staleSec maxProfitSuspicious favFn now snap
            (some TickStep.signalLog) st =
            ctrlErrLog (applySignalStage f staleSec maxProfitSuspicious favFn
              now snap (applyAssignStage f staleSec maxProfitSuspicious favFn
                now snap (statusChangeLogs snap.statuses st))) from rfl,
          ctrlErrLog_error]
        have hsignal : countLevel (applySignalStage f staleSec
            maxProfitSuspicious favFn now snap
            (applyAssignStage f staleSec maxProfitSuspicious favFn now snap
              (statusChangeLogs snap.statuses st))).logs "ERROR" =
            countLevel (statusChangeLogs snap.statuses st).logs "ERROR" := by
          unfold applySignalStage logSignals
          rw [foldl_signalStep_error]
          rfl
        rw [hsignal, statusChangeLogs_error]
      · rintro (h | h | h | h) <;> exact absurd h (by decide)

/-- Counterexample to claim C4 as stated: an exception surfacing from
the `updated.emit` call is caught and logged as exactly one ERROR, yet
the retained state is *not* unchanged — the tick's row assignment (made
on the lines before the emit) survives the failed tick. -/
theorem tick_failure_counterexample :
    countLevel
        (refreshModel exampleSettings 3 5 (fun _ => false) 10 snapEx
          (some TickStep.emitUpdate) stEx).logs "ERROR" = 1 ∧
    (refreshModel exampleSettings 3 5 (fun _ => false) 10 snapEx
        (some TickStep.emitUpdate) stEx).lastRows ≠ stEx.lastRows := by
  constructor
  · rfl
  · have hlen : (refreshModel exampleSettings 3 5 (fun _ => false) 10 snapEx
        (some TickStep.emitUpdate) stEx).lastRows.length = 1 := rfl
    intro h
    rw [h] at hlen
    exact absurd hlen (by decide)

/-- Witness for `tick_failure_policy`: a provider-tick failure on the
concrete scenario leaves the retained state untouched. -/
theorem tick_failure_policy_witness :
    countLevel
        (refreshModel exampleSettings 3 5 (fun _ => false) 10 snapEx
          (some TickStep.providerTick) stEx).logs "ERROR" =
      countLevel stEx.logs "ERROR" + 1 ∧
    (refreshModel exampleSettings 3 5 (fun _ => false) 10 snapEx
        (some TickStep.providerTick) stEx).lastRows = stEx.lastRows ∧
    (refreshModel exampleSettings 3 5 (fun _ => false) 10 snapEx
        (some TickStep.providerTick) stEx).pairLogCooldown =
      stEx.pairLogCooldown := by
  have h := tick_failure_policy exampleSettings 3 5 (fun _ => false) 10 snapEx
    stEx TickStep.providerTick
  exact ⟨h.1, (h.2 (Or.inl rfl)).1, (h.2 (Or.inl rfl)).2.2.2⟩

end Arby

